import Mathlib

/-!
Verification of the webhook-intake and fulfillment-state module of this
repository (src/webhook.js, which concatenates three variants of the design).

The embedding models:
 * the `fulfillments` SQLite table (variant 1 schema: `checkout_session_id`
   and `verification_session_id` both UNIQUE, NULLs distinct as in SQLite),
 * the `upsert` statement of variant 1 (`ON CONFLICT(checkout_session_id)
   DO UPDATE` with COALESCE merge) and of variant 2 (blind overwrite),
 * JavaScript `x || null` / `a || b || null` coercions on string fields,
 * the `/webhook` route of each variant (signature check, dispatch on event
   type, `provisionAndWelcome`), with the external provisioner and mailer
   abstracted as outcome parameters, and
 * the `/api/health` aggregate query.

SQLite semantics used throughout: an INSERT whose `ON CONFLICT` target is
`checkout_session_id` resolves only conflicts on that column; a conflict on
the separate UNIQUE `verification_session_id` column aborts the statement
with a constraint error, and NULL values never conflict on a UNIQUE column.
`SUM(CASE ...)` over an empty table is NULL.
-/

namespace SpraxxxWebhook

/-- JavaScript `x || null` for a nullable string: the empty string is the
only falsy string, so it is coerced to null. -/
def orNull : Option String → Option String
  | some s => if s = "" then none else some s
  | none => none

/-- JavaScript `a || b || ... || null` over nullable strings. -/
def jsOrChain : List (Option String) → Option String
  | [] => none
  | a :: rest =>
    match orNull a with
    | some s => some s
    | none => jsOrChain rest

/-- SQL `COALESCE(a, b)`. -/
def coalesce : Option String → Option String → Option String
  | some s, _ => some s
  | none, b => b

/-- Serialized `{}`, the value bound for a falsy `payload`
(`JSON.stringify(row.payload || \x7b\x7d)`). -/
def nullJson : String := "\x7b\x7d"

/-- One row of the `fulfillments` table (variant 1 schema, src/webhook.js
lines 31-41).  The autoincrement `id` is the position in the row list and
`created_at` is set by the database clock; neither is read by the code
under verification. -/
structure DbRow where
  checkout_session_id : Option String
  verification_session_id : Option String
  customer_email : Option String
  product_id : Option String
  promo_code : Option String
  status : String
  payload : String
deriving DecidableEq

/-- The JavaScript object passed to `upsert` (fields may be absent/null;
`payload` is the serialized JSON, `none` when the payload was falsy). -/
structure UpsertRow where
  checkout_session_id : Option String
  verification_session_id : Option String
  customer_email : Option String
  product_id : Option String
  promo_code : Option String
  status : String
  payload : Option String
deriving DecidableEq

/-- Parameter binding of `upsert` (src/webhook.js lines 57-65): every field
except `status` goes through `|| null`, and `payload` through
`JSON.stringify(row.payload || \x7b\x7d)`. -/
def bindRow (r : UpsertRow) : DbRow where
  checkout_session_id := orNull r.checkout_session_id
  verification_session_id := orNull r.verification_session_id
  customer_email := orNull r.customer_email
  product_id := orNull r.product_id
  promo_code := orNull r.promo_code
  status := r.status
  payload := r.payload.getD nullJson

/-- Conflict of the incoming row with an existing row on the UNIQUE
`checkout_session_id` column; SQL NULLs never conflict. -/
def csConflict (n e : DbRow) : Bool :=
  match n.checkout_session_id, e.checkout_session_id with
  | some a, some b => a = b
  | _, _ => false

/-- Conflict on the UNIQUE `verification_session_id` column. -/
def vsConflict (n e : DbRow) : Bool :=
  match n.verification_session_id, e.verification_session_id with
  | some a, some b => a = b
  | _, _ => false

def hasCsConflict (n : DbRow) (st : List DbRow) : Bool :=
  st.any (csConflict n)

def hasVsConflict (n : DbRow) (st : List DbRow) : Bool :=
  st.any (vsConflict n)

/-- In the `DO UPDATE` path, the updated row would carry
`verification_session_id = excluded.verification_session_id` when the
incoming value is non-NULL; the UNIQUE constraint aborts the update when a
row other than the one being updated already holds that value. -/
def vsClashOther (n : DbRow) (st : List DbRow) : Bool :=
  st.any (fun e => vsConflict n e && !csConflict n e)

/-- The `DO UPDATE SET` clause of variant 1 (src/webhook.js lines 50-56):
COALESCE merge on the mutable fields, blind overwrite of `status` and
`payload`; `checkout_session_id` is not in the SET list. -/
def mergeRow (old n : DbRow) : DbRow where
  checkout_session_id := old.checkout_session_id
  verification_session_id := coalesce n.verification_session_id old.verification_session_id
  customer_email := coalesce n.customer_email old.customer_email
  product_id := coalesce n.product_id old.product_id
  promo_code := coalesce n.promo_code old.promo_code
  status := n.status
  payload := n.payload

/-- The `DO UPDATE SET` clause of variant 2 (src/webhook.js lines 266-272):
every listed field is overwritten with the incoming (`excluded`) value. -/
def mergeRowV2 (old n : DbRow) : DbRow :=
  { n with checkout_session_id := old.checkout_session_id }

/-- Apply the `DO UPDATE` to the (unique) row whose `checkout_session_id`
conflicts with the incoming row. -/
def applyMergeWith (m : DbRow → DbRow → DbRow) (n : DbRow) : List DbRow → List DbRow
  | [] => []
  | e :: rest =>
    if csConflict n e then m e n :: rest
    else e :: applyMergeWith m n rest

/-- The `INSERT ... ON CONFLICT(checkout_session_id) DO UPDATE` statement,
parameterized by the SET clause.  A conflict on `checkout_session_id`
triggers the update (which can still abort on the other UNIQUE column);
with no such conflict the plain insert runs, aborting when it would violate
the UNIQUE `verification_session_id` constraint.  `Except.error` is the
rejected promise (SQLITE_CONSTRAINT). -/
def upsertWith (m : DbRow → DbRow → DbRow) (st : List DbRow) (r : UpsertRow) :
    Except Unit (List DbRow) :=
  if hasCsConflict (bindRow r) st then
    if vsClashOther (bindRow r) st then .error ()
    else .ok (applyMergeWith m (bindRow r) st)
  else
    if hasVsConflict (bindRow r) st then .error ()
    else .ok (st ++ [bindRow r])

/-- `upsert` of variant 1 (src/webhook.js lines 45-68). -/
def upsert (st : List DbRow) (r : UpsertRow) : Except Unit (List DbRow) :=
  upsertWith mergeRow st r

/-- `upsert` of variant 2 (src/webhook.js lines 260-284).  Variant 2 opens
`./fulfillment.db` without creating the table; its schema (UNIQUE on both
session-identifier columns) is the one given by the spec, sections 3 and 6,
and by the variant 1 CREATE TABLE. -/
def upsertV2 (st : List DbRow) (r : UpsertRow) : Except Unit (List DbRow) :=
  upsertWith mergeRowV2 st r

deriving instance DecidableEq for Except

/-! ### Events and external collaborators -/

/-- The fields of a `checkout.session.completed` event object that the
handlers read (optional-chained vendor fields become nullable strings;
`payloadStr` stands for `JSON.stringify` of the whole object). -/
structure CheckoutSession where
  id : String
  customer_details_email : Option String
  customer_email : Option String
  metadata_user_email : Option String
  metadata_product_id : Option String
  metadata_promo_code : Option String
  metadata_verification_session_id : Option String
  total_details_discount_id : Option String
  payment_status : String
  payloadStr : String
deriving DecidableEq

/-- The fields of an identity verification-session event object that the
handlers read. -/
structure VerificationSession where
  id : String
  metadata_email : Option String
  lvr_document_email : Option String
  metadata_product_id : Option String
  metadata_promo_code : Option String
  payloadStr : String
deriving DecidableEq

/-- A signature-verified Stripe event, dispatched on `event.type`. -/
inductive Event where
  | checkoutCompleted (s : CheckoutSession)
  | verificationVerified (v : VerificationSession)
  | verificationRequiresInput (v : VerificationSession)
  | other (t : String)
deriving DecidableEq

/-- Response body of the provisioner (`product_url | wg_conf | creds`,
all optional). -/
structure RelayData where
  product_url : Option String
  wg_conf : Option String
  creds : Option String
deriving DecidableEq

/-- Outcome of the outbound `axios.post` to the provisioner: a 2xx response
with data, or a thrown error (timeout / non-2xx). -/
inductive RelayOutcome where
  | success (d : RelayData)
  | failure
deriving DecidableEq

/-- Outcome of `transporter.sendMail` (resolves or rejects). -/
inductive MailOutcome where
  | success
  | failure
deriving DecidableEq

/-- Observable side-effect state of one variant: the database rows, the
recipients of attempted mail sends, and the number of provisioning calls
issued. -/
structure EffectState where
  store : List DbRow
  emails : List (Option String)
  relayCalls : Nat
deriving DecidableEq

def emptyES : EffectState := ⟨[], [], 0⟩

/-- HTTP acknowledgment: status code, and whether the body was the receipt
`received: true` (as opposed to an error text). -/
structure Response where
  status : Nat
  received : Bool
deriving DecidableEq

/-! ### Variant 1: `provisionAndWelcome` and the `/webhook` route -/

/-- Stand-in for `JSON.stringify` of the relay response. -/
def stringifyRelay (d : RelayData) : String :=
  "product_url:" ++ d.product_url.getD "null" ++ ";wg_conf:" ++ d.wg_conf.getD "null"
    ++ ";creds:" ++ d.creds.getD "null"

/-- Stand-in for `JSON.stringify` of the fulfilled payload
`\x7bprovision: data, fulfilled_at: now\x7d` written by
`provisionAndWelcome` (src/webhook.js line 107). -/
def provisionPayload (d : RelayData) (now : String) : String :=
  "provision:" ++ stringifyRelay d ++ ";fulfilled_at:" ++ now

/-- The argument object of `provisionAndWelcome`. -/
structure PWArgs where
  email : Option String
  verification_session_id : Option String
  product_id : Option String
  promo_code : Option String
  checkout_session_id : Option String
deriving DecidableEq

/-- The row `provisionAndWelcome` upserts after a successful relay call
(src/webhook.js lines 100-108): raw argument fields, status `fulfilled`,
payload from the relay response. -/
def fulfilledUpsertRow (a : PWArgs) (d : RelayData) (now : String) : UpsertRow :=
  ⟨a.checkout_session_id, a.verification_session_id, a.email, a.product_id,
    a.promo_code, "fulfilled", some (provisionPayload d now)⟩

/-- Result of `provisionAndWelcome`: the effect state reached, and whether
the promise resolved (`ok = false` is a thrown error the route catches). -/
structure PWResult where
  state : EffectState
  ok : Bool
deriving DecidableEq

/-- `provisionAndWelcome` (src/webhook.js lines 79-123): call the
provisioner; on success upsert the `fulfilled` row and then send the
welcome mail.  A relay failure, a constraint error from the upsert, or a
mail failure each reject the promise at that point, keeping the effects
already performed. -/
def provisionAndWelcome (es : EffectState) (a : PWArgs) (relay : RelayOutcome)
    (mail : MailOutcome) (now : String) : PWResult :=
  match relay with
  | .failure => ⟨⟨es.store, es.emails, es.relayCalls + 1⟩, false⟩
  | .success d =>
    match upsert es.store (fulfilledUpsertRow a d now) with
    | .error _ => ⟨⟨es.store, es.emails, es.relayCalls + 1⟩, false⟩
    | .ok st2 =>
      match mail with
      | .failure => ⟨⟨st2, es.emails ++ [a.email], es.relayCalls + 1⟩, false⟩
      | .success => ⟨⟨st2, es.emails ++ [a.email], es.relayCalls + 1⟩, true⟩

/-- The row the `checkout.session.completed` handler of variant 1 upserts
(src/webhook.js lines 137-152). -/
def checkoutUpsertRow (s : CheckoutSession) : UpsertRow :=
  ⟨some s.id,
    orNull s.metadata_verification_session_id,
    jsOrChain [s.customer_details_email, s.customer_email, s.metadata_user_email],
    some ((orNull s.metadata_product_id).getD "builder-pass"),
    orNull s.metadata_promo_code,
    if s.payment_status = "paid" then "paid" else "payment_not_paid",
    some s.payloadStr⟩

/-- The row the `identity.verification_session.verified` handler of
variant 1 upserts (src/webhook.js lines 159-174). -/
def verifiedUpsertRow (v : VerificationSession) : UpsertRow :=
  ⟨none, some v.id,
    jsOrChain [v.metadata_email, v.lvr_document_email],
    some ((orNull v.metadata_product_id).getD "builder-pass"),
    orNull v.metadata_promo_code,
    "verified", some v.payloadStr⟩

/-- The argument object built for `provisionAndWelcome` by the verified
handler (src/webhook.js lines 177-179): `checkout_session_id` is null. -/
def pwArgsOf (v : VerificationSession) : PWArgs :=
  ⟨jsOrChain [v.metadata_email, v.lvr_document_email],
    some v.id,
    some ((orNull v.metadata_product_id).getD "builder-pass"),
    orNull v.metadata_promo_code,
    none⟩

/-- The row the `identity.verification_session.requires_input` handler of
variant 1 upserts (src/webhook.js lines 184-194). -/
def requiresInputUpsertRow (v : VerificationSession) : UpsertRow :=
  ⟨none, some v.id,
    orNull v.metadata_email,
    some ((orNull v.metadata_product_id).getD "builder-pass"),
    orNull v.metadata_promo_code,
    "needs_input", some v.payloadStr⟩

/-- The `/webhook` route of variant 1 (src/webhook.js lines 126-205).
`sigValid` is the outcome of `stripe.webhooks.constructEvent` (the Event
Verifier, an external SDK call): when it throws, the route answers 400
before any handler runs.  Any error thrown inside the handlers is caught
and answered with 500. -/
def handleWebhook (sigValid : Bool) (ev : Event) (relay : RelayOutcome)
    (mail : MailOutcome) (now : String) (es : EffectState) :
    Response × EffectState :=
  if sigValid then
    match ev with
    | .checkoutCompleted s =>
      match upsert es.store (checkoutUpsertRow s) with
      | .error _ => (⟨500, false⟩, es)
      | .ok st2 => (⟨200, true⟩, { es with store := st2 })
    | .verificationVerified v =>
      match upsert es.store (verifiedUpsertRow v) with
      | .error _ => (⟨500, false⟩, es)
      | .ok st2 =>
        match provisionAndWelcome { es with store := st2 } (pwArgsOf v) relay mail now with
        | ⟨es2, true⟩ => (⟨200, true⟩, es2)
        | ⟨es2, false⟩ => (⟨500, false⟩, es2)
    | .verificationRequiresInput v =>
      match upsert es.store (requiresInputUpsertRow v) with
      | .error _ => (⟨500, false⟩, es)
      | .ok st2 => (⟨200, true⟩, { es with store := st2 })
    | .other _ => (⟨200, true⟩, es)
  else
    (⟨400, false⟩, es)

/-! ### Variant 1: `/api/health` -/

/-- `SUM(CASE WHEN p THEN 1 ELSE 0 END)` over the table: SQL `SUM` is NULL
over an empty table and otherwise counts the matching rows. -/
def sumCase (p : DbRow → Bool) (st : List DbRow) : Option Nat :=
  match st with
  | [] => none
  | _ :: _ => some (st.countP p)

/-- The JSON body of `/api/health` (src/webhook.js lines 208-221); the
`events_24h` column depends on the database wall clock and is not read by
any claim, so it is omitted here. -/
structure HealthSnapshot where
  ok : Bool
  verified : Option Nat
  fulfilled : Option Nat
deriving DecidableEq

def healthSnapshot (st : List DbRow) : HealthSnapshot :=
  ⟨true,
    sumCase (fun e => e.status = "verified") st,
    sumCase (fun e => e.status = "fulfilled") st⟩

/-! ### Variant 2: `/webhook` route (src/webhook.js lines 246-384) -/

/-- Stand-in for `JSON.stringify(\x7bfulfilled_at: now\x7d)` (line 343). -/
def fulfilledAtPayload (now : String) : String :=
  "fulfilled_at:" ++ now

/-- The `/webhook` route of variant 2.  The switch handles the same three
event types; the verified case relays and notifies inline, guarded by
`if (email)`, and its upsert overwrites blindly. -/
def handleWebhookV2 (sigValid : Bool) (ev : Event) (relay : RelayOutcome)
    (mail : MailOutcome) (now : String) (es : EffectState) :
    Response × EffectState :=
  if sigValid then
    match ev with
    | .checkoutCompleted s =>
      match upsertV2 es.store
          ⟨some s.id, none, s.customer_details_email,
            some ((orNull s.metadata_product_id).getD "builder-pass"),
            orNull s.total_details_discount_id, "paid", some s.payloadStr⟩ with
      | .error _ => (⟨500, false⟩, es)
      | .ok st2 => (⟨200, true⟩, { es with store := st2 })
    | .verificationVerified v =>
      match upsertV2 es.store
          ⟨none, some v.id, v.metadata_email,
            some ((orNull v.metadata_product_id).getD "builder-pass"),
            none, "verified", some v.payloadStr⟩ with
      | .error _ => (⟨500, false⟩, es)
      | .ok st2 =>
        let es2 : EffectState := { es with store := st2 }
        match orNull v.metadata_email with
        | none => (⟨200, true⟩, es2)
        | some em =>
          let es3 : EffectState := { es2 with relayCalls := es2.relayCalls + 1 }
          match relay with
          | .failure => (⟨500, false⟩, es3)
          | .success _ =>
            match upsertV2 es3.store
                ⟨none, some v.id, some em,
                  some ((orNull v.metadata_product_id).getD "builder-pass"),
                  none, "fulfilled", some (fulfilledAtPayload now)⟩ with
            | .error _ => (⟨500, false⟩, es3)
            | .ok st4 =>
              let es4 : EffectState :=
                { es3 with store := st4, emails := es3.emails ++ [some em] }
              match mail with
              | .failure => (⟨500, false⟩, es4)
              | .success => (⟨200, true⟩, es4)
    | .verificationRequiresInput v =>
      match upsertV2 es.store
          ⟨none, some v.id, orNull v.metadata_email,
            some ((orNull v.metadata_product_id).getD "builder-pass"),
            none, "needs_input", some v.payloadStr⟩ with
      | .error _ => (⟨500, false⟩, es)
      | .ok st2 => (⟨200, true⟩, { es with store := st2 })
    | .other _ => (⟨200, true⟩, es)
  else
    (⟨400, false⟩, es)

/-! ### Variant 3: `/webhook` route (src/webhook.js lines 431-541) -/

/-- Plain `INSERT` of variant 3 into its table, whose only UNIQUE column is
`checkout_session_id`; a constraint violation is only logged by the insert
callback, so it leaves the table unchanged without failing the request. -/
def insertV3 (st : List DbRow) (row : DbRow) : List DbRow :=
  if hasCsConflict row st then st else st ++ [row]

/-- Stand-in for `JSON.stringify(\x7berror: String(fulfillErr)\x7d)`. -/
def errorPayloadV3 : String := "error:fulfillment error"

/-- The `/webhook` route of variant 3: only `checkout.session.completed`
is handled; an existing row for the session id short-circuits to the
receipt; an unpaid session stores `payment_not_paid`; a paid session
relays, stores `fulfilled` and mails, with any error in that block stored
as `fulfillment_failed` and answered with 500. -/
def handleWebhookV3 (sigValid : Bool) (ev : Event) (relay : RelayOutcome)
    (mail : MailOutcome) (es : EffectState) : Response × EffectState :=
  if sigValid then
    match ev with
    | .checkoutCompleted s =>
      let notPaidRow : DbRow :=
        ⟨some s.id, orNull s.metadata_verification_session_id,
          jsOrChain [s.customer_details_email, s.customer_email],
          orNull s.metadata_product_id, orNull s.metadata_promo_code,
          "payment_not_paid", s.payloadStr⟩
      let failedRow : DbRow :=
        ⟨some s.id, orNull s.metadata_verification_session_id,
          jsOrChain [s.customer_details_email, s.customer_email],
          orNull s.metadata_product_id, orNull s.metadata_promo_code,
          "fulfillment_failed", errorPayloadV3⟩
      if es.store.any (fun e => e.checkout_session_id = some s.id) then
        (⟨200, true⟩, es)
      else if s.payment_status ≠ "paid" then
        (⟨200, true⟩, { es with store := insertV3 es.store notPaidRow })
      else
        let customerEmail :=
          jsOrChain [s.customer_details_email, s.metadata_user_email, s.customer_email]
        let es1 : EffectState := { es with relayCalls := es.relayCalls + 1 }
        match relay with
        | .failure =>
          (⟨500, false⟩, { es1 with store := insertV3 es1.store failedRow })
        | .success d =>
          let fulfilledRow : DbRow :=
            ⟨some s.id, s.metadata_verification_session_id, customerEmail,
              some ((orNull s.metadata_product_id).getD "prod_SPRA50"),
              orNull s.metadata_promo_code, "fulfilled", stringifyRelay d⟩
          let es2 : EffectState := { es1 with
            store := insertV3 es1.store fulfilledRow,
            emails := es1.emails ++ [customerEmail] }
          match mail with
          | .failure =>
            (⟨500, false⟩, { es2 with store := insertV3 es2.store failedRow })
          | .success => (⟨200, true⟩, es2)
    | _ => (⟨200, true⟩, es)
  else
    (⟨400, false⟩, es)

/-! ### Event traces (variant 1) -/

/-- One inbound delivery: the signature-verification outcome, the event,
and the outcomes of the external relay and mailer for this request. -/
structure Input where
  sigValid : Bool
  ev : Event
  relay : RelayOutcome
  mail : MailOutcome
  now : String
deriving DecidableEq

/-- The effect of one delivery on the observable state (variant 1). -/
def step (es : EffectState) (i : Input) : EffectState :=
  (handleWebhook i.sigValid i.ev i.relay i.mail i.now es).2

/-- The state after a sequence of deliveries, starting from the empty
database. -/
def runEvents (l : List Input) : EffectState :=
  l.foldl step emptyES

/-- Position of a status in the lifecycle
`paid/payment_not_paid → verified → fulfilled`; the sideways states
`needs_input`/`fulfillment_failed` carry no position. -/
def stageRank (s : String) : Option Nat :=
  if s = "paid" then some 0
  else if s = "payment_not_paid" then some 0
  else if s = "verified" then some 1
  else if s = "fulfilled" then some 2
  else none

/-- "No record ever moves backward": every row (identified by its position,
the autoincrement id) that carries a lifecycle stage still exists later,
still carries a lifecycle stage, and its stage never decreased. -/
def statusForward (old new : List DbRow) : Prop :=
  ∀ (i : Nat) (e : DbRow) (a : Nat), old[i]? = some e → stageRank e.status = some a →
    ∃ (e2 : DbRow) (b : Nat), new[i]? = some e2 ∧ stageRank e2.status = some b ∧ a ≤ b

/-- Invariant of reachable variant 1 stores: a row keyed by a non-NULL
`checkout_session_id` was only ever written by the checkout handler, whose
statuses are `paid`/`payment_not_paid`. -/
def csStatusInv (st : List DbRow) : Prop :=
  ∀ e ∈ st, e.checkout_session_id ≠ none →
    e.status = "paid" ∨ e.status = "payment_not_paid"

/-! ### Concrete inputs used by witnesses and counterexamples -/

def sampleRelay : RelayData := ⟨some "u", none, none⟩

def sampleVerif : VerificationSession :=
  ⟨"vs_1", some "a@b.c", none, none, none, "pl_ver"⟩

def sampleReq : VerificationSession :=
  ⟨"vs_1", some "a@b.c", none, none, none, "pl_req"⟩

def rowPromoX : UpsertRow :=
  ⟨some "K", none, some "a@b.c", some "p", some "X", "paid", some "pl1"⟩

def rowPromoNull : UpsertRow :=
  ⟨some "K", none, some "a@b.c", some "p", none, "paid", some "pl2"⟩

def rowEmptyFields : UpsertRow :=
  ⟨some "K", none, some "", some "", some "", "paid", some "pl3"⟩

def sessionUnpaid : CheckoutSession :=
  ⟨"cs_1", some "a@b.c", none, none, none, none, none, none, "unpaid", "pls"⟩

def samplePWArgs : PWArgs :=
  ⟨some "a@b.c", some "vs_9", some "p", none, none⟩

/-! ### Lemmas about `upsertWith` -/

theorem upsertWith_nil (m : DbRow → DbRow → DbRow) (r : UpsertRow) :
    upsertWith m [] r = .ok [bindRow r] := rfl

theorem csConflict_some {n e : DbRow} {c : String}
    (hn : n.checkout_session_id = some c) (he : e.checkout_session_id = some c) :
    csConflict n e = true := by
  simp [csConflict, hn, he]

theorem csConflict_of_none {n : DbRow} (h : n.checkout_session_id = none)
    (e : DbRow) : csConflict n e = false := by
  cases he : e.checkout_session_id <;> simp [csConflict, h, he]

theorem csConflict_true_cs {n e : DbRow} (h : csConflict n e = true) :
    e.checkout_session_id ≠ none := by
  intro he
  cases hn : n.checkout_session_id <;> simp [csConflict, hn, he] at h

theorem hasCsConflict_of_none {n : DbRow} (h : n.checkout_session_id = none) :
    ∀ st : List DbRow, hasCsConflict n st = false := by
  intro st
  induction st with
  | nil => rfl
  | cons e rest ih =>
    unfold hasCsConflict at ih ⊢
    rw [List.any_cons, csConflict_of_none h, Bool.false_or]
    exact ih

theorem upsertWith_single (m : DbRow → DbRow → DbRow) (e : DbRow) (r : UpsertRow)
    (h : csConflict (bindRow r) e = true) :
    upsertWith m [e] r = .ok [m e (bindRow r)] := by
  simp [upsertWith, hasCsConflict, vsClashOther, applyMergeWith, h]

theorem upsertWith_insert (m : DbRow → DbRow → DbRow) (st : List DbRow)
    (r : UpsertRow) (hcs : hasCsConflict (bindRow r) st = false)
    (hvs : hasVsConflict (bindRow r) st = false) :
    upsertWith m st r = .ok (st ++ [bindRow r]) := by
  simp [upsertWith, hcs, hvs]

theorem upsertWith_ok_cs_none (m : DbRow → DbRow → DbRow) {st st' : List DbRow}
    {r : UpsertRow} (hr : (bindRow r).checkout_session_id = none)
    (h : upsertWith m st r = .ok st') : st' = st ++ [bindRow r] := by
  unfold upsertWith at h
  rw [hasCsConflict_of_none hr] at h
  cases hvs : hasVsConflict (bindRow r) st <;> rw [hvs] at h <;> simp at h
  exact h.symm

theorem upsertWith_ok_append_or_merge (m : DbRow → DbRow → DbRow)
    {st st' : List DbRow} {r : UpsertRow} (h : upsertWith m st r = .ok st') :
    st' = st ++ [bindRow r] ∨ st' = applyMergeWith m (bindRow r) st := by
  unfold upsertWith at h
  cases hcs : hasCsConflict (bindRow r) st <;> rw [hcs] at h
  · cases hvs : hasVsConflict (bindRow r) st <;> rw [hvs] at h <;> simp at h
    exact Or.inl h.symm
  · cases hcl : vsClashOther (bindRow r) st <;> rw [hcl] at h <;> simp at h
    exact Or.inr h.symm

theorem applyMergeWith_getElem? (m : DbRow → DbRow → DbRow) (n : DbRow) :
    ∀ (st : List DbRow) (i : Nat) (e : DbRow), st[i]? = some e →
      (applyMergeWith m n st)[i]? = some e ∨
      ((applyMergeWith m n st)[i]? = some (m e n) ∧ csConflict n e = true) := by
  intro st
  induction st with
  | nil => intro i e h; simp at h
  | cons x rest ih =>
    intro i e h
    cases hcc : csConflict n x with
    | true =>
      have heq : applyMergeWith m n (x :: rest) = m x n :: rest := by
        simp [applyMergeWith, hcc]
      cases i with
      | zero =>
        simp at h
        subst h
        exact Or.inr ⟨by simp [heq], hcc⟩
      | succ j =>
        simp at h
        exact Or.inl (by simp [heq, h])
    | false =>
      have heq : applyMergeWith m n (x :: rest) = x :: applyMergeWith m n rest := by
        simp [applyMergeWith, hcc]
      cases i with
      | zero =>
        simp at h
        subst h
        exact Or.inl (by simp [heq])
      | succ j =>
        simp at h
        rw [heq]
        simpa using ih j e h

theorem applyMergeWith_mem (m : DbRow → DbRow → DbRow) (n : DbRow) :
    ∀ (st : List DbRow) (e : DbRow), e ∈ applyMergeWith m n st →
      e ∈ st ∨ ∃ e0, e0 ∈ st ∧ e = m e0 n := by
  intro st
  induction st with
  | nil => intro e h; simp [applyMergeWith] at h
  | cons x rest ih =>
    intro e h
    cases hcc : csConflict n x with
    | true =>
      rw [show applyMergeWith m n (x :: rest) = m x n :: rest from by
        simp [applyMergeWith, hcc]] at h
      rcases List.mem_cons.mp h with h1 | h2
      · exact Or.inr ⟨x, List.mem_cons_self x rest, h1⟩
      · exact Or.inl (List.mem_cons_of_mem x h2)
    | false =>
      rw [show applyMergeWith m n (x :: rest) = x :: applyMergeWith m n rest from by
        simp [applyMergeWith, hcc]] at h
      rcases List.mem_cons.mp h with h1 | h2
      · exact Or.inl (h1 ▸ List.mem_cons_self x rest)
      · rcases ih e h2 with h3 | ⟨e0, he0, hm⟩
        · exact Or.inl (List.mem_cons_of_mem x h3)
        · exact Or.inr ⟨e0, List.mem_cons_of_mem x he0, hm⟩

/-! ### Lemmas about `statusForward` and `csStatusInv` -/

theorem statusForward_refl (st : List DbRow) : statusForward st st :=
  fun _ e a h ha => ⟨e, a, h, ha, le_rfl⟩

theorem statusForward_trans {a b c : List DbRow} (hab : statusForward a b)
    (hbc : statusForward b c) : statusForward a c := by
  intro i e x h hx
  obtain ⟨e2, y, h2, hy, hxy⟩ := hab i e x h hx
  obtain ⟨e3, z, h3, hz, hyz⟩ := hbc i e2 y h2 hy
  exact ⟨e3, z, h3, hz, le_trans hxy hyz⟩

theorem statusForward_append (st l : List DbRow) : statusForward st (st ++ l) := by
  intro i e a h ha
  refine ⟨e, a, ?_, ha, le_rfl⟩
  have hi : i < st.length := by
    by_contra hge
    rw [List.getElem?_eq_none (Nat.le_of_not_lt hge)] at h
    exact Option.noConfusion h
  rw [List.getElem?_append_left hi]
  exact h

theorem stageRank_paid : stageRank "paid" = some 0 := by decide

theorem stageRank_payment_not_paid : stageRank "payment_not_paid" = some 0 := by
  decide

theorem csStatusInv_nil : csStatusInv [] := by
  intro e he
  exact absurd he (List.not_mem_nil e)

/-- A checkout-level status satisfies the row invariant whatever the key. -/
theorem csStatusInv_append_of_status {st : List DbRow} (hinv : csStatusInv st)
    (e : DbRow) (he : e.status = "paid" ∨ e.status = "payment_not_paid" ∨
      e.checkout_session_id = none) :
    csStatusInv (st ++ [e]) := by
  intro x hx hcs
  rcases List.mem_append.mp hx with hx1 | hx2
  · exact hinv x hx1 hcs
  · have hxe : x = e := by simpa using hx2
    subst hxe
    rcases he with h | h | h
    · exact Or.inl h
    · exact Or.inr h
    · exact absurd h hcs

/-- Merging with a checkout-level incoming row keeps the invariant. -/
theorem csStatusInv_applyMerge {st : List DbRow} (hinv : csStatusInv st)
    (n : DbRow) (hn : n.status = "paid" ∨ n.status = "payment_not_paid") :
    csStatusInv (applyMergeWith mergeRow n st) := by
  intro x hx hcs
  rcases applyMergeWith_mem mergeRow n st x hx with hx1 | ⟨e0, _, hm⟩
  · exact hinv x hx1 hcs
  · subst hm
    rcases hn with h | h
    · exact Or.inl h
    · exact Or.inr h

/-- Merging with a checkout-level incoming row never moves a ranked row
backward: the merged rows were checkout-keyed, hence at stage 0, and the
incoming status is again at stage 0. -/
theorem statusForward_applyMerge {st : List DbRow} (hinv : csStatusInv st)
    (n : DbRow) (hn : n.status = "paid" ∨ n.status = "payment_not_paid") :
    statusForward st (applyMergeWith mergeRow n st) := by
  intro i e a h ha
  rcases applyMergeWith_getElem? mergeRow n st i e h with hsame | ⟨hm, hcc⟩
  · exact ⟨e, a, hsame, ha, le_rfl⟩
  · have hmem : e ∈ st := List.getElem?_mem h
    have hpaid := hinv e hmem (csConflict_true_cs hcc)
    have ha0 : a = 0 := by
      rcases hpaid with hp | hp <;> rw [hp] at ha
      · rw [stageRank_paid] at ha
        exact (Option.some.inj ha).symm
      · rw [stageRank_payment_not_paid] at ha
        exact (Option.some.inj ha).symm
    refine ⟨mergeRow e n, 0, hm, ?_, by omega⟩
    show stageRank n.status = some 0
    rcases hn with h2 | h2 <;> rw [h2]
    · exact stageRank_paid
    · exact stageRank_payment_not_paid

theorem csStatusInv_append_none {st l : List DbRow} (hinv : csStatusInv st)
    (hl : ∀ e ∈ l, e.checkout_session_id = none) : csStatusInv (st ++ l) := by
  intro x hx hcs
  rcases List.mem_append.mp hx with hx1 | hx2
  · exact hinv x hx1 hcs
  · exact absurd (hl x hx2) hcs

theorem checkoutUpsertRow_status (s : CheckoutSession) :
    (bindRow (checkoutUpsertRow s)).status = "paid" ∨
    (bindRow (checkoutUpsertRow s)).status = "payment_not_paid" := by
  by_cases hp : s.payment_status = "paid" <;> simp [bindRow, checkoutUpsertRow, hp]

theorem verifiedUpsertRow_cs (v : VerificationSession) :
    (bindRow (verifiedUpsertRow v)).checkout_session_id = none := rfl

theorem requiresInputUpsertRow_cs (v : VerificationSession) :
    (bindRow (requiresInputUpsertRow v)).checkout_session_id = none := rfl

theorem fulfilledUpsertRow_pw_cs (v : VerificationSession) (d : RelayData)
    (now : String) :
    (bindRow (fulfilledUpsertRow (pwArgsOf v) d now)).checkout_session_id = none := rfl

/-- The store reached by `provisionAndWelcome`: unchanged (relay failure or
constraint error), or exactly the result of the `fulfilled` upsert. -/
theorem provisionAndWelcome_store (es : EffectState) (a : PWArgs)
    (relay : RelayOutcome) (mail : MailOutcome) (now : String) :
    (provisionAndWelcome es a relay mail now).state.store = es.store ∨
    ∃ d st2, relay = .success d ∧
      upsert es.store (fulfilledUpsertRow a d now) = .ok st2 ∧
      (provisionAndWelcome es a relay mail now).state.store = st2 := by
  cases relay with
  | failure => left; rfl
  | success d =>
    cases hup : upsert es.store (fulfilledUpsertRow a d now) with
    | error e => left; simp [provisionAndWelcome, hup]
    | ok st2 =>
      right
      refine ⟨d, st2, rfl, hup, ?_⟩
      cases mail <;> simp [provisionAndWelcome, hup]

/-- Everything one delivery can do to the variant 1 store: leave it alone,
apply a checkout-status upsert (append or in-place merge), or append rows
keyed only by `verification_session_id` (NULL `checkout_session_id`). -/
theorem step_store (es : EffectState) (inp : Input) :
    (step es inp).store = es.store ∨
    (∃ r : UpsertRow,
      ((bindRow r).status = "paid" ∨ (bindRow r).status = "payment_not_paid") ∧
      ((step es inp).store = es.store ++ [bindRow r] ∨
        (step es inp).store = applyMergeWith mergeRow (bindRow r) es.store)) ∨
    (∃ l : List DbRow, (∀ e ∈ l, e.checkout_session_id = none) ∧
      (step es inp).store = es.store ++ l) := by
  obtain ⟨sig, ev, relay, mail, now⟩ := inp
  cases sig with
  | false => left; simp [step, handleWebhook]
  | true =>
    cases ev with
    | other t => left; simp [step, handleWebhook]
    | checkoutCompleted s =>
      cases hup : upsert es.store (checkoutUpsertRow s) with
      | error e => left; simp [step, handleWebhook, hup]
      | ok st2 =>
        right; left
        refine ⟨checkoutUpsertRow s, checkoutUpsertRow_status s, ?_⟩
        have hstep : (step es ⟨true, .checkoutCompleted s, relay, mail, now⟩).store = st2 := by
          simp [step, handleWebhook, hup]
        rw [hstep]
        exact upsertWith_ok_append_or_merge mergeRow hup
    | verificationVerified v =>
      cases hup1 : upsert es.store (verifiedUpsertRow v) with
      | error e => left; simp [step, handleWebhook, hup1]
      | ok st2 =>
        have hst2 : st2 = es.store ++ [bindRow (verifiedUpsertRow v)] :=
          upsertWith_ok_cs_none mergeRow (verifiedUpsertRow_cs v) hup1
        right; right
        have hs := provisionAndWelcome_store { es with store := st2 } (pwArgsOf v)
          relay mail now
        cases hpw : provisionAndWelcome { es with store := st2 } (pwArgsOf v)
            relay mail now with
        | mk es2 ok =>
          have hstep : (step es ⟨true, .verificationVerified v, relay, mail, now⟩).store
              = es2.store := by
            cases ok <;> simp [step, handleWebhook, hup1, hpw]
          rw [hpw] at hs
          rw [hstep]
          rcases hs with hs1 | ⟨d, st3, _, hup2, hs2⟩
          · refine ⟨[bindRow (verifiedUpsertRow v)], ?_, ?_⟩
            · intro e he
              rw [List.mem_singleton.mp he]
              exact verifiedUpsertRow_cs v
            · rw [hs1]
              exact hst2
          · have hst3 : st3 = st2 ++ [bindRow (fulfilledUpsertRow (pwArgsOf v) d now)] :=
              upsertWith_ok_cs_none mergeRow (fulfilledUpsertRow_pw_cs v d now) hup2
            refine ⟨[bindRow (verifiedUpsertRow v),
              bindRow (fulfilledUpsertRow (pwArgsOf v) d now)], ?_, ?_⟩
            · intro e he
              rcases List.mem_cons.mp he with h1 | h2
              · rw [h1]; exact verifiedUpsertRow_cs v
              · rw [List.mem_singleton.mp h2]; exact fulfilledUpsertRow_pw_cs v d now
            · rw [hs2, hst3, hst2]
              simp
    | verificationRequiresInput v =>
      cases hup : upsert es.store (requiresInputUpsertRow v) with
      | error e => left; simp [step, handleWebhook, hup]
      | ok st2 =>
        right; right
        refine ⟨[bindRow (requiresInputUpsertRow v)], ?_, ?_⟩
        · intro e he
          rw [List.mem_singleton.mp he]
          exact requiresInputUpsertRow_cs v
        · have hstep : (step es ⟨true, .verificationRequiresInput v, relay, mail, now⟩).store
              = st2 := by
            simp [step, handleWebhook, hup]
          rw [hstep]
          exact upsertWith_ok_cs_none mergeRow (requiresInputUpsertRow_cs v) hup

theorem step_inv {es : EffectState} (inp : Input) (hinv : csStatusInv es.store) :
    csStatusInv (step es inp).store := by
  rcases step_store es inp with h | ⟨r, hr, h | h⟩ | ⟨l, hl, h⟩
  · rw [h]; exact hinv
  · rw [h]
    exact csStatusInv_append_of_status hinv (bindRow r)
      (by rcases hr with h1 | h1
          · exact Or.inl h1
          · exact Or.inr (Or.inl h1))
  · rw [h]; exact csStatusInv_applyMerge hinv (bindRow r) hr
  · rw [h]; exact csStatusInv_append_none hinv hl

theorem step_sf {es : EffectState} (inp : Input) (hinv : csStatusInv es.store) :
    statusForward es.store (step es inp).store := by
  rcases step_store es inp with h | ⟨r, hr, h | h⟩ | ⟨l, _, h⟩
  · rw [h]; exact statusForward_refl _
  · rw [h]; exact statusForward_append _ _
  · rw [h]; exact statusForward_applyMerge hinv (bindRow r) hr
  · rw [h]; exact statusForward_append _ _

theorem foldl_step_spec (l : List Input) :
    ∀ es : EffectState, csStatusInv es.store →
      csStatusInv ((l.foldl step es).store) ∧
      statusForward es.store ((l.foldl step es).store) := by
  induction l with
  | nil => exact fun es h => ⟨h, statusForward_refl _⟩
  | cons i rest ih =>
    intro es h
    obtain ⟨h1, h2⟩ := ih (step es i) (step_inv i h)
    exact ⟨h1, statusForward_trans (step_sf i h) h2⟩

/-! ### Claims -/

/-- C1 (code_bug): the claim says a later event carrying an identifier
already present updates its row via merge.  The code's upsert resolves
conflicts only on `checkout_session_id`, so an insert that collides on the
UNIQUE `verification_session_id` aborts instead of merging: even the first
delivery of a `verified` event fails (the in-handler `fulfilled` upsert
collides with the `verified` row just written), answering 500 with the row
stuck at `verified` and no mail sent; and a `verified` event following a
`requires_input` event for the same verification session fails with 500,
leaving the row at `needs_input` instead of merging it to `verified`.
This contradicts the code's own comments ("production-ready, idempotent",
"Idempotent fulfill (will overwrite/merge ...)"). -/
theorem c1_redelivery_constraint_bug :
    ((handleWebhook true (.verificationVerified sampleVerif) (.success sampleRelay)
        .success "t0" emptyES).1.status = 500 ∧
      (handleWebhook true (.verificationVerified sampleVerif) (.success sampleRelay)
        .success "t0" emptyES).2.store.map (fun e => e.status) = ["verified"] ∧
      (handleWebhook true (.verificationVerified sampleVerif) (.success sampleRelay)
        .success "t0" emptyES).2.emails = []) ∧
    ((handleWebhook true (.verificationVerified sampleVerif) (.success sampleRelay)
        .success "t1"
        (handleWebhook true (.verificationRequiresInput sampleReq) (.success sampleRelay)
          .success "t0" emptyES).2).1.status = 500 ∧
      (handleWebhook true (.verificationVerified sampleVerif) (.success sampleRelay)
        .success "t1"
        (handleWebhook true (.verificationRequiresInput sampleReq) (.success sampleRelay)
          .success "t0" emptyES).2).2.store.map (fun e => e.status) = ["needs_input"]) := by
  decide

/-- C2 (confirmed): along any sequence of deliveries processed by the
variant 1 webhook route from an empty store, every row that carries a
lifecycle stage (`paid`/`payment_not_paid` at 0, `verified` at 1,
`fulfilled` at 2) keeps carrying one and its stage never decreases — in
particular a `fulfilled` row never returns to `paid` or `verified`. -/
theorem c2_status_never_backward (pre post : List Input) :
    statusForward (runEvents pre).store (runEvents (pre ++ post)).store := by
  have hinv := (foldl_step_spec pre emptyES csStatusInv_nil).1
  have heq : runEvents (pre ++ post) = post.foldl step (runEvents pre) := by
    simp [runEvents, List.foldl_append]
  rw [heq]
  exact (foldl_step_spec post (runEvents pre) hinv).2

/-- Witness for C2 at a concrete two-delivery trace. -/
theorem c2_witness :
    statusForward
      (runEvents [⟨true, .checkoutCompleted sessionUnpaid, .success sampleRelay,
        .success, "t0"⟩]).store
      (runEvents ([⟨true, .checkoutCompleted sessionUnpaid, .success sampleRelay,
        .success, "t0"⟩] ++
        [⟨true, .verificationVerified sampleVerif, .success sampleRelay,
          .success, "t1"⟩])).store :=
  c2_status_never_backward
    [⟨true, .checkoutCompleted sessionUnpaid, .success sampleRelay, .success, "t0"⟩]
    [⟨true, .verificationVerified sampleVerif, .success sampleRelay, .success, "t1"⟩]

/-- C3 counterexample: the claim quantifies over both upsert variants, but
variant 2 (src/webhook.js lines 260-284) overwrites blindly: upserting
`promoCode = "X"` then `promoCode = null` for the same checkout key ends
with NULL, not `"X"`. -/
theorem c3_counterexample :
    upsertV2 [bindRow rowPromoX] rowPromoNull
      = .ok [mergeRowV2 (bindRow rowPromoX) (bindRow rowPromoNull)] ∧
    (mergeRowV2 (bindRow rowPromoX) (bindRow rowPromoNull)).promo_code = none ∧
    ¬ (mergeRowV2 (bindRow rowPromoX) (bindRow rowPromoNull)).promo_code = some "X" := by
  decide

/-- C3 (corrected): for the variant 1 upsert, on a conflict on the
checkout key the merge keeps each existing mutable field unless the
incoming value is present (COALESCE), unconditionally overwrites `status`
and `payload`, and in particular null-then-X yields X and X-then-null
keeps X. -/
theorem c3_merge_semantics (r1 r2 : UpsertRow) (c : String)
    (h1 : orNull r1.checkout_session_id = some c)
    (h2 : orNull r2.checkout_session_id = some c) :
    upsert [] r1 = .ok [bindRow r1] ∧
    upsert [bindRow r1] r2 = .ok [mergeRow (bindRow r1) (bindRow r2)] ∧
    (mergeRow (bindRow r1) (bindRow r2)).verification_session_id
      = coalesce (orNull r2.verification_session_id) (orNull r1.verification_session_id) ∧
    (mergeRow (bindRow r1) (bindRow r2)).customer_email
      = coalesce (orNull r2.customer_email) (orNull r1.customer_email) ∧
    (mergeRow (bindRow r1) (bindRow r2)).product_id
      = coalesce (orNull r2.product_id) (orNull r1.product_id) ∧
    (mergeRow (bindRow r1) (bindRow r2)).promo_code
      = coalesce (orNull r2.promo_code) (orNull r1.promo_code) ∧
    (mergeRow (bindRow r1) (bindRow r2)).status = r2.status ∧
    (mergeRow (bindRow r1) (bindRow r2)).payload = r2.payload.getD nullJson ∧
    (orNull r2.promo_code = none → orNull r1.promo_code = some "X" →
      (mergeRow (bindRow r1) (bindRow r2)).promo_code = some "X") ∧
    (orNull r1.promo_code = none → orNull r2.promo_code = some "X" →
      (mergeRow (bindRow r1) (bindRow r2)).promo_code = some "X") := by
  refine ⟨upsertWith_nil mergeRow r1,
    upsertWith_single mergeRow (bindRow r1) r2 (csConflict_some h2 h1),
    rfl, rfl, rfl, rfl, rfl, rfl, ?_, ?_⟩
  · intro ha hb
    show coalesce (orNull r2.promo_code) (orNull r1.promo_code) = some "X"
    rw [ha, hb]
    rfl
  · intro _ hb
    show coalesce (orNull r2.promo_code) (orNull r1.promo_code) = some "X"
    rw [hb]
    rfl

/-- Witness for C3 at concrete rows, in both orders. -/
theorem c3_witness :
    upsert [bindRow rowPromoX] rowPromoNull
      = .ok [mergeRow (bindRow rowPromoX) (bindRow rowPromoNull)] ∧
    (mergeRow (bindRow rowPromoX) (bindRow rowPromoNull)).promo_code = some "X" ∧
    upsert [bindRow rowPromoNull] rowPromoX
      = .ok [mergeRow (bindRow rowPromoNull) (bindRow rowPromoX)] ∧
    (mergeRow (bindRow rowPromoNull) (bindRow rowPromoX)).promo_code = some "X" := by
  have h1 := c3_merge_semantics rowPromoX rowPromoNull "K" (by decide) (by decide)
  have h2 := c3_merge_semantics rowPromoNull rowPromoX "K" (by decide) (by decide)
  exact ⟨h1.2.1, h1.2.2.2.2.2.2.2.2.1 (by decide) (by decide),
    h2.2.1, h2.2.2.2.2.2.2.2.2.2 (by decide) (by decide)⟩

/-- C4 counterexample: on a relay failure the final row keeps the
`verified` status written before the relay call — no row ever holds
`fulfillment_failed` (variant 1 never writes that status). -/
theorem c4_counterexample :
    (handleWebhook true (.verificationVerified sampleVerif) .failure .success "t"
      emptyES).2.store.map (fun e => e.status) = ["verified"] ∧
    ((handleWebhook true (.verificationVerified sampleVerif) .failure .success "t"
      emptyES).2.store.all (fun e => e.status ≠ "fulfillment_failed")) = true ∧
    (handleWebhook true (.verificationVerified sampleVerif) .failure .success "t"
      emptyES).1.status = 500 := by
  decide

/-- C4 (corrected): for a `verified` event whose verification session is
not yet in the store, a relay failure leaves the row at `verified` (the
write that precedes the relay call), sends no mail, counts one relay call,
and answers 500. -/
theorem c4_relay_failure (v : VerificationSession) (m : MailOutcome) (now : String)
    (es : EffectState)
    (hfresh : hasVsConflict (bindRow (verifiedUpsertRow v)) es.store = false) :
    (handleWebhook true (.verificationVerified v) .failure m now es).1.status = 500 ∧
    (handleWebhook true (.verificationVerified v) .failure m now es).2.store
      = es.store ++ [bindRow (verifiedUpsertRow v)] ∧
    (handleWebhook true (.verificationVerified v) .failure m now es).2.emails
      = es.emails ∧
    (handleWebhook true (.verificationVerified v) .failure m now es).2.relayCalls
      = es.relayCalls + 1 ∧
    (bindRow (verifiedUpsertRow v)).status = "verified" := by
  have hup : upsert es.store (verifiedUpsertRow v)
      = .ok (es.store ++ [bindRow (verifiedUpsertRow v)]) :=
    upsertWith_insert mergeRow es.store (verifiedUpsertRow v)
      (hasCsConflict_of_none (verifiedUpsertRow_cs v) es.store) hfresh
  refine ⟨?_, ?_, ?_, ?_, rfl⟩ <;>
    simp [handleWebhook, hup, provisionAndWelcome]

/-- Witness for C4 at a concrete event from the empty store. -/
theorem c4_witness :
    (handleWebhook true (.verificationVerified sampleVerif) .failure .success "t"
      emptyES).1.status = 500 ∧
    (handleWebhook true (.verificationVerified sampleVerif) .failure .success "t"
      emptyES).2.store = emptyES.store ++ [bindRow (verifiedUpsertRow sampleVerif)] ∧
    (handleWebhook true (.verificationVerified sampleVerif) .failure .success "t"
      emptyES).2.emails = emptyES.emails := by
  have h := c4_relay_failure sampleVerif .success "t" emptyES (by decide)
  exact ⟨h.1, h.2.1, h.2.2.1⟩

/-- C5 (confirmed): with a failed signature check, every variant answers
400 with an error body and returns the effect state untouched: no handler
runs, no store write, no relay call, no mail. -/
theorem c5_invalid_signature (ev : Event) (relay : RelayOutcome) (m : MailOutcome)
    (now : String) (es : EffectState) :
    handleWebhook false ev relay m now es = (⟨400, false⟩, es) ∧
    handleWebhookV2 false ev relay m now es = (⟨400, false⟩, es) ∧
    handleWebhookV3 false ev relay m es = (⟨400, false⟩, es) := by
  refine ⟨?_, ?_, ?_⟩ <;> simp [handleWebhook, handleWebhookV2, handleWebhookV3]

/-- Witness for C5 at a concrete request. -/
theorem c5_witness :
    handleWebhook false (.other "x") (.success sampleRelay) .success "t" emptyES
      = (⟨400, false⟩, emptyES) ∧
    handleWebhookV2 false (.other "x") (.success sampleRelay) .success "t" emptyES
      = (⟨400, false⟩, emptyES) ∧
    handleWebhookV3 false (.other "x") (.success sampleRelay) .success emptyES
      = (⟨400, false⟩, emptyES) :=
  c5_invalid_signature (.other "x") (.success sampleRelay) .success "t" emptyES

/-- C6 counterexample: variant 2's `checkout.session.completed` case never
reads the payment status and always writes `paid`, here for a session whose
payment status is `unpaid`. -/
theorem c6_counterexample :
    sessionUnpaid.payment_status ≠ "paid" ∧
    (handleWebhookV2 true (.checkoutCompleted sessionUnpaid) (.success sampleRelay)
      .success "t" emptyES).2.store.map (fun e => e.status) = ["paid"] ∧
    (handleWebhookV2 true (.checkoutCompleted sessionUnpaid) (.success sampleRelay)
      .success "t" emptyES).1.status = 200 := by
  decide

/-- C6 (corrected): variant 1 writes `paid` exactly when the processor's
payment status is `"paid"` and `payment_not_paid` otherwise; variant 2
always writes `paid`. -/
theorem c6_checkout_status (s : CheckoutSession) (relay : RelayOutcome)
    (m : MailOutcome) (now : String) :
    (handleWebhook true (.checkoutCompleted s) relay m now emptyES).2.store.map
        (fun e => e.status)
      = [if s.payment_status = "paid" then "paid" else "payment_not_paid"] ∧
    (handleWebhookV2 true (.checkoutCompleted s) relay m now emptyES).2.store.map
        (fun e => e.status) = ["paid"] := by
  constructor
  · simp [handleWebhook, upsert, upsertWith, hasCsConflict, hasVsConflict,
      bindRow, checkoutUpsertRow, emptyES]
  · simp [handleWebhookV2, upsertV2, upsertWith, hasCsConflict, hasVsConflict,
      bindRow, emptyES]

/-- Witness for C6 at a concrete unpaid session. -/
theorem c6_witness :
    (handleWebhook true (.checkoutCompleted sessionUnpaid) (.success sampleRelay)
      .success "t" emptyES).2.store.map (fun e => e.status) = ["payment_not_paid"] ∧
    (handleWebhookV2 true (.checkoutCompleted sessionUnpaid) (.success sampleRelay)
      .success "t" emptyES).2.store.map (fun e => e.status) = ["paid"] := by
  have h := c6_checkout_status sessionUnpaid (.success sampleRelay) .success "t"
  exact ⟨h.1.trans (by decide), h.2⟩

/-- C7 (confirmed): in `provisionAndWelcome` the `fulfilled` store write
precedes the mail send — a mail attempt is recorded only when the upsert
resolved, and the final store is the upsert's result whatever the mail
outcome (a mail failure neither rolls back nor alters it). -/
theorem c7_store_before_mail (es : EffectState) (a : PWArgs) (d : RelayData)
    (now : String) :
    (provisionAndWelcome es a (.success d) .failure now).state.store
      = (provisionAndWelcome es a (.success d) .success now).state.store ∧
    (fulfilledUpsertRow a d now).status = "fulfilled" ∧
    (∀ st2, upsert es.store (fulfilledUpsertRow a d now) = .ok st2 →
      ∀ mo : MailOutcome,
        (provisionAndWelcome es a (.success d) mo now).state.store = st2 ∧
        (provisionAndWelcome es a (.success d) mo now).state.emails
          = es.emails ++ [a.email]) ∧
    (∀ er : Unit, upsert es.store (fulfilledUpsertRow a d now) = .error er →
      ∀ mo : MailOutcome,
        (provisionAndWelcome es a (.success d) mo now).state.emails = es.emails) := by
  refine ⟨?_, rfl, ?_, ?_⟩
  · cases hup : upsert es.store (fulfilledUpsertRow a d now) <;>
      simp [provisionAndWelcome, hup]
  · intro st2 hup mo
    cases mo <;> simp [provisionAndWelcome, hup]
  · intro er hup mo
    cases mo <;> simp [provisionAndWelcome, hup]

/-- Witness for C7 at concrete arguments from the empty store. -/
theorem c7_witness :
    (provisionAndWelcome emptyES samplePWArgs (.success sampleRelay) .failure "t").state.store
      = (provisionAndWelcome emptyES samplePWArgs (.success sampleRelay) .success "t").state.store ∧
    (provisionAndWelcome emptyES samplePWArgs (.success sampleRelay) .failure "t").state.store
      = [bindRow (fulfilledUpsertRow samplePWArgs sampleRelay "t")] ∧
    (provisionAndWelcome emptyES samplePWArgs (.success sampleRelay) .failure "t").state.emails
      = emptyES.emails ++ [samplePWArgs.email] := by
  have h := c7_store_before_mail emptyES samplePWArgs sampleRelay "t"
  have h3 := h.2.2.1 [bindRow (fulfilledUpsertRow samplePWArgs sampleRelay "t")]
    (upsertWith_nil mergeRow (fulfilledUpsertRow samplePWArgs sampleRelay "t")) .failure
  exact ⟨h.1, h3.1, h3.2⟩

/-- C8 (confirmed): a validly-signed event of an unhandled type is
acknowledged with 200 and the receipt body by every variant, and the
effect state — store, mails, relay calls — is returned untouched. -/
theorem c8_unknown_event (t : String) (relay : RelayOutcome) (m : MailOutcome)
    (now : String) (es : EffectState) :
    handleWebhook true (.other t) relay m now es = (⟨200, true⟩, es) ∧
    handleWebhookV2 true (.other t) relay m now es = (⟨200, true⟩, es) ∧
    handleWebhookV3 true (.other t) relay m es = (⟨200, true⟩, es) := by
  refine ⟨?_, ?_, ?_⟩ <;> simp [handleWebhook, handleWebhookV2, handleWebhookV3]

/-- Witness for C8 at a concrete unhandled event type. -/
theorem c8_witness :
    handleWebhook true (.other "invoice.paid") (.success sampleRelay) .success "t" emptyES
      = (⟨200, true⟩, emptyES) ∧
    handleWebhookV2 true (.other "invoice.paid") (.success sampleRelay) .success "t" emptyES
      = (⟨200, true⟩, emptyES) ∧
    handleWebhookV3 true (.other "invoice.paid") (.success sampleRelay) .success emptyES
      = (⟨200, true⟩, emptyES) :=
  c8_unknown_event "invoice.paid" (.success sampleRelay) .success "t" emptyES

/-- C9 counterexample: on an empty table the health query's
`SUM(CASE ...)` is NULL, so the snapshot's `fulfilled` field is NULL and
not the row count 0 claimed for "including when the table is empty". -/
theorem c9_counterexample :
    (healthSnapshot []).fulfilled = none ∧
    ([] : List DbRow).countP (fun e => e.status = "fulfilled") = 0 ∧
    ¬ (healthSnapshot []).fulfilled
        = some (([] : List DbRow).countP (fun e => e.status = "fulfilled")) := by
  decide

/-- C9 (corrected): on every non-empty store the snapshot's `fulfilled`
field is the number of `fulfilled` rows and its `verified` field the
number of `verified` rows; on the empty table both fields are NULL. -/
theorem c9_health_counts (st : List DbRow) (h : st ≠ []) :
    (healthSnapshot st).fulfilled
      = some (st.countP (fun e => e.status = "fulfilled")) ∧
    (healthSnapshot st).verified
      = some (st.countP (fun e => e.status = "verified")) := by
  cases st with
  | nil => exact absurd rfl h
  | cons e rest => exact ⟨rfl, rfl⟩

/-- Witness for C9 at a concrete one-row store. -/
theorem c9_witness :
    (healthSnapshot [bindRow rowPromoX]).fulfilled
      = some (([bindRow rowPromoX] : List DbRow).countP (fun e => e.status = "fulfilled")) ∧
    (healthSnapshot [bindRow rowPromoX]).verified
      = some (([bindRow rowPromoX] : List DbRow).countP (fun e => e.status = "verified")) :=
  c9_health_counts [bindRow rowPromoX] (by decide)

/-- C10 (confirmed): a field passed as the empty string is bound as NULL
(`|| null`), is persisted as NULL by a fresh insert, and on a merge is
treated as absent by COALESCE, so it never overwrites the stored
`customer_email`, `product_id` or `promo_code`. -/
theorem c10_empty_string_null (r1 r2 : UpsertRow) (c : String)
    (h1 : orNull r1.checkout_session_id = some c)
    (h2 : orNull r2.checkout_session_id = some c)
    (he : r2.customer_email = some "") (hp : r2.product_id = some "")
    (hq : r2.promo_code = some "") :
    (bindRow r2).customer_email = none ∧
    (bindRow r2).product_id = none ∧
    (bindRow r2).promo_code = none ∧
    upsert [] r2 = .ok [bindRow r2] ∧
    upsert [bindRow r1] r2 = .ok [mergeRow (bindRow r1) (bindRow r2)] ∧
    (mergeRow (bindRow r1) (bindRow r2)).customer_email
      = (bindRow r1).customer_email ∧
    (mergeRow (bindRow r1) (bindRow r2)).product_id = (bindRow r1).product_id ∧
    (mergeRow (bindRow r1) (bindRow r2)).promo_code = (bindRow r1).promo_code := by
  have hbe : (bindRow r2).customer_email = none := by simp [bindRow, orNull, he]
  have hbp : (bindRow r2).product_id = none := by simp [bindRow, orNull, hp]
  have hbq : (bindRow r2).promo_code = none := by simp [bindRow, orNull, hq]
  refine ⟨hbe, hbp, hbq, upsertWith_nil mergeRow r2,
    upsertWith_single mergeRow (bindRow r1) r2 (csConflict_some h2 h1), ?_, ?_, ?_⟩
  · show coalesce (bindRow r2).customer_email (bindRow r1).customer_email = _
    rw [hbe]
    rfl
  · show coalesce (bindRow r2).product_id (bindRow r1).product_id = _
    rw [hbp]
    rfl
  · show coalesce (bindRow r2).promo_code (bindRow r1).promo_code = _
    rw [hbq]
    rfl

/-- Witness for C10: an all-empty-string update leaves the stored row's
fields intact. -/
theorem c10_witness :
    upsert [bindRow rowPromoX] rowEmptyFields
      = .ok [mergeRow (bindRow rowPromoX) (bindRow rowEmptyFields)] ∧
    (mergeRow (bindRow rowPromoX) (bindRow rowEmptyFields)).customer_email
      = some "a@b.c" ∧
    (mergeRow (bindRow rowPromoX) (bindRow rowEmptyFields)).product_id = some "p" ∧
    (mergeRow (bindRow rowPromoX) (bindRow rowEmptyFields)).promo_code = some "X" := by
  have h := c10_empty_string_null rowPromoX rowEmptyFields "K" (by decide) (by decide)
    rfl rfl rfl
  refine ⟨h.2.2.2.2.1, ?_, ?_, ?_⟩
  · rw [h.2.2.2.2.2.1]; decide
  · rw [h.2.2.2.2.2.2.1]; decide
  · rw [h.2.2.2.2.2.2.2]; decide

end SpraxxxWebhook
